import Mathlib

/-!
# Spare parts inventory: browser client

A shallow embedding of `src/app/static/app.js` (the page script of the
inventory client) and of the functions it shares with `src/app.js`.

The functions `saveIdent`, `loadIdent`, `headers`, `statusMsg`, `identOk`,
`listParts`, `ensureCart`, `addSelected`, `commitCheckout` and `checkIn` have
the same text in both files; `refreshSummary` differs only in the element it
writes to and in the `commit.disabled` flag, and `toCSV`, `loadStock`,
`loadLedger` and `clearSummary` exist only in `src/app/static/app.js`.

Modelling conventions.

* A script string is a `String`; `trim` follows `String.prototype.trim`.
* The page is a record of the form fields the script reads and of the
  elements it writes; every element the script addresses is taken to exist.
* `localStorage` is a pair of optional strings, one per key the script uses.
* The backend is a function from the requests issued so far (the last one
  being the current request) to a reply; a `fetch` appends its request to the
  world's log and asks the backend.  A reply is either a network failure
  (the `fetch` promise rejects) or a response with its `ok` flag, its body
  read as text and its body read as JSON.
* An `async` function is run to completion; a handler either completes or
  raises (its promise rejects) and in both cases leaves a world behind.
* A URL is a path with a list of decoded query parameters; the percent
  encoding done by `URLSearchParams` and `encodeURIComponent` is not modelled.
* JSON numbers are integers printed in decimal.
* `toCSV` takes an array of JSON objects, each as its list of properties.
* A rendered table is kept as the list of rows written into it, not as
  markup; a row that is `null` makes the rendering raise, as reading a
  property of `null` does.  The text of an error raised by the engine itself
  is representative; only `e.message` of the two errors the script creates
  (`Missing identity`, `Create cart failed`) is taken from the source.
-/

namespace SpareParts

/-! ## Strings -/

/-- White space and line terminators removed by `String.prototype.trim`. -/
def isJsWhite (c : Char) : Bool :=
  c.toNat = 0x09 || c.toNat = 0x0A || c.toNat = 0x0B || c.toNat = 0x0C ||
  c.toNat = 0x0D || c.toNat = 0x20 || c.toNat = 0xA0 || c.toNat = 0x1680 ||
  (0x2000 ≤ c.toNat && c.toNat ≤ 0x200A) ||
  c.toNat = 0x2028 || c.toNat = 0x2029 || c.toNat = 0x202F ||
  c.toNat = 0x205F || c.toNat = 0x3000 || c.toNat = 0xFEFF

/-- The method `s.trim()`. -/
def trim (s : String) : String :=
  ⟨((s.data.dropWhile isJsWhite).reverse.dropWhile isJsWhite).reverse⟩

/-- Truthiness of a string: every string but the empty one. -/
def truthy (s : String) : Bool := decide (s ≠ "")

/-- The method `xs.join(sep)` on an array of strings. -/
def join (sep : String) : List String → String
  | [] => ""
  | [x] => x
  | x :: y :: rest => x ++ sep ++ join sep (y :: rest)

/-! ## JSON values and `JSON.stringify` -/

/-- A value produced by `res.json()`. An object lists its own properties in
the order `Object.keys` reports them. -/
inductive JVal where
  | null : JVal
  | bool : Bool → JVal
  | num : Int → JVal
  | str : String → JVal
  | arr : List JVal → JVal
  | obj : List (String × JVal) → JVal

/-- A record: a JSON object, as its list of properties. -/
abbrev Record := List (String × JVal)

/-- Lower-case hexadecimal digit. -/
def hexDigit (n : Nat) : Char :=
  if n < 10 then Char.ofNat (48 + n) else Char.ofNat (87 + n)

/-- One character of a string as `JSON.stringify` writes it. -/
def escapeChar (c : Char) : List Char :=
  if c.toNat = 0x22 then [Char.ofNat 0x5C, Char.ofNat 0x22]
  else if c.toNat = 0x5C then [Char.ofNat 0x5C, Char.ofNat 0x5C]
  else if c.toNat = 0x08 then [Char.ofNat 0x5C, 'b']
  else if c.toNat = 0x0C then [Char.ofNat 0x5C, 'f']
  else if c.toNat = 0x0A then [Char.ofNat 0x5C, 'n']
  else if c.toNat = 0x0D then [Char.ofNat 0x5C, 'r']
  else if c.toNat = 0x09 then [Char.ofNat 0x5C, 't']
  else if c.toNat < 0x20 then
    [Char.ofNat 0x5C, 'u', '0', '0', hexDigit (c.toNat / 16), hexDigit (c.toNat % 16)]
  else [c]

/-- The characters of a string, each escaped. -/
def escapeChars : List Char → List Char
  | [] => []
  | c :: cs => escapeChar c ++ escapeChars cs

/-- A string as `JSON.stringify` writes it: quoted and escaped. -/
def quoteJSON (s : String) : String :=
  ⟨Char.ofNat 0x22 :: (escapeChars s.data ++ [Char.ofNat 0x22])⟩

mutual
/-- The call `JSON.stringify(v)` on a JSON value. -/
def stringify : JVal → String
  | .null => "null"
  | .bool b => if b then "true" else "false"
  | .num n => toString n
  | .str s => quoteJSON s
  | .arr xs => "[" ++ stringifyElems xs ++ "]"
  | .obj kvs => "\x7b" ++ stringifyMembers kvs ++ "\x7d"
/-- The elements of an array, comma separated. -/
def stringifyElems : List JVal → String
  | [] => ""
  | [x] => stringify x
  | x :: y :: rest => stringify x ++ "," ++ stringifyElems (y :: rest)
/-- The members of an object, comma separated. -/
def stringifyMembers : List (String × JVal) → String
  | [] => ""
  | [(k, v)] => quoteJSON k ++ ":" ++ stringify v
  | (k, v) :: kv :: rest =>
      quoteJSON k ++ ":" ++ stringify v ++ "," ++ stringifyMembers (kv :: rest)
end

/-- Property read `r[h]` on a record: `none` is `undefined`. -/
def getProp (r : Record) (h : String) : Option JVal :=
  match r with
  | [] => none
  | (k, v) :: rest => if k = h then some v else getProp rest h

/-- The expression `x ?? ''`: the empty string for `undefined` and `null`. -/
def orEmpty : Option JVal → JVal
  | none => .str ""
  | some .null => .str ""
  | some v => v

/-- The function `toCSV(rows)`. -/
def toCSV (rows : List Record) : String :=
  match rows with
  | [] => ""
  | first :: _ =>
    let headers := first.map Prod.fst
    let head := join "," headers
    let body := join "\n"
      (rows.map fun r => join "," (headers.map fun h => stringify (orEmpty (getProp r h))))
    head ++ "\n" ++ body

/-- The CSV text as the specification words it: the field names of the first
record, then one line per record holding its values for those field names,
each JSON-encoded (a field the record lacks has no value and gives an empty
cell). -/
def toCSV_asSpecified (rows : List Record) : String :=
  match rows with
  | [] => ""
  | first :: _ =>
    join "\n" (join "," (first.map Prod.fst) ::
      rows.map fun r => join "," ((first.map Prod.fst).map fun h =>
        match getProp r h with
        | some v => stringify v
        | none => ""))

/-! ## The page, the storage and the backend -/

/-- The form fields the script reads. `partPick` is the value of the checked
radio button named `partPick`, when one is checked. -/
structure Form where
  upn : String
  role : String
  search : String
  dash_search : String
  lg_action : String
  lg_part : String
  lg_wo : String
  lg_since : String
  lg_until : String
  wo : String
  in_part : String
  in_wo : String
  in_claim : String
  partPick : Option String
  deriving DecidableEq

/-- The entries of `localStorage` under the keys `upn` and `role`. -/
structure Storage where
  upn : Option String
  role : Option String
  deriving DecidableEq

/-- The element `status`: its class and its text. -/
structure Status where
  className : String
  textContent : String
  deriving DecidableEq

/-- Content of the element `summary`: a text, or the rendered cart lines
(the `part_no` of each line, `none` for `undefined`). -/
inductive Summary where
  | text : String → Summary
  | lines : List (Option JVal) → Summary

/-- HTTP methods the script uses. -/
inductive Method where
  | GET
  | POST
  | DELETE
  deriving DecidableEq

/-- A request handed to `fetch`. -/
structure Request where
  method : Method
  path : String
  query : List (String × String)
  headers : List (String × String)
  body : Option (List (String × String))
  deriving DecidableEq

/-- A settled `fetch`: a network failure with its message, or a response
with `res.ok`, `res.text()` and `res.json()` (which may fail to parse). -/
inductive Reply where
  | netError : String → Reply
  | resp : Bool → String → Except String JVal → Reply

/-- The backend: the reply to the last of the requests issued so far. -/
abbrev Server := List Request → Reply

/-- A response the script holds. -/
structure Response where
  ok : Bool
  text : String
  json : Except String JVal

/-- Everything the script reads and writes. -/
structure World where
  form : Form
  storage : Storage
  status : Status
  partsBody : List JVal
  summary : Summary
  commitDisabled : Bool
  stockBody : List JVal
  ledgerBody : List JVal
  lastStock : Option (List JVal)
  requests : List Request

/-- How a handler ends: it completes with a value, or raises a message. -/
inductive Outcome (α : Type) where
  | done : α → World → Outcome α
  | raised : String → World → Outcome α

/-- The world a handler leaves behind. -/
def Outcome.world {α : Type} : Outcome α → World
  | .done _ w => w
  | .raised _ w => w

/-- Whether the handler raised. -/
def Outcome.isRaised {α : Type} : Outcome α → Bool
  | .done _ _ => false
  | .raised _ _ => true

/-- Sequencing: a raise skips the rest. -/
def Outcome.andThen {α β : Type} (o : Outcome α) (k : α → World → Outcome β) : Outcome β :=
  match o with
  | .done a w => k a w
  | .raised e w => .raised e w

/-- The statement `try ... catch(e) ...`. -/
def Outcome.tryCatch {α : Type} (o : Outcome α) (h : String → World → Outcome α) : Outcome α :=
  match o with
  | .done a w => .done a w
  | .raised e w => h e w

/-- The call `fetch(...)`: logs the request and settles with the backend's reply. -/
def fetch (srv : Server) (req : Request) (w : World) : Outcome Response :=
  let w1 := { w with requests := w.requests ++ [req] }
  match srv w1.requests with
  | .netError e => .raised e w1
  | .resp ok text json => .done ⟨ok, text, json⟩ w1

/-- The call `res.json()`. -/
def readJson (res : Response) (w : World) : Outcome JVal :=
  match res.json with
  | .ok v => .done v w
  | .error e => .raised e w

/-! ## Identity store and status reporter -/

/-- The function `statusMsg(msg, type)`. -/
def statusMsg (msg : String) (type : String) (w : World) : World :=
  { w with status := ⟨if truthy type then type else "muted", msg⟩ }

/-- The function `saveIdent()`. -/
def saveIdent (w : World) : World :=
  let w1 := { w with storage := { w.storage with upn := some (trim w.form.upn) } }
  let w2 := { w1 with storage := { w1.storage with role := some w1.form.role } }
  statusMsg "Saved user/role" "success" w2

/-- The expression `localStorage.getItem(k) || dflt`: `none` is `null`. -/
def orDefault (stored : Option String) (dflt : String) : String :=
  match stored with
  | none => dflt
  | some s => if truthy s then s else dflt

/-- The function `loadIdent()`. -/
def loadIdent (w : World) : World :=
  let w1 := { w with form := { w.form with upn := orDefault w.storage.upn "admin@example.com" } }
  { w1 with form := { w1.form with role := orDefault w1.storage.role "PartsAdmin" } }

/-- The function `headers()`. -/
def headers (w : World) : List (String × String) :=
  let upn := trim w.form.upn
  let role := w.form.role
  [("x-user-upn", upn), ("x-user-role", role)]

/-- The function `identOk()`. -/
def identOk (w : World) : Bool × World :=
  let upn := trim w.form.upn
  let role := w.form.role
  if !truthy upn || !truthy role then
    (false, statusMsg "Set User (UPN) and Role, then click Save" "error" w)
  else (true, w)

/-! ## Helpers for URLs and rendering -/

/-- The call `u.searchParams.set(k, v)`. -/
def setParam : List (String × String) → String → String → List (String × String)
  | [], k, v => [(k, v)]
  | (k0, v0) :: rest, k, v =>
    if k0 = k then (k, v) :: rest.filter (fun p => p.1 ≠ k)
    else (k0, v0) :: setParam rest k v

/-- The statement `if(v) u.searchParams.set(k, v)`. -/
def setIfTruthy (q : List (String × String)) (k v : String) : List (String × String) :=
  if truthy v then setParam q k v else q

/-- Whether a row is `null`: reading a property of it raises. -/
def isNull : JVal → Bool
  | .null => true
  | _ => false

/-- Property read `r.name` on a non-null JSON value. -/
def readProp (r : JVal) (name : String) : Option JVal :=
  match r with
  | .obj kvs => getProp kvs name
  | _ => none

/-- The loop `data.forEach(r => ... body.appendChild(tr))` of `listParts`:
rows are appended one by one; a `null` row raises and leaves the rows
appended before it. -/
def appendRows : List JVal → World → Outcome Unit
  | [], w => .done () w
  | r :: rest, w =>
    if isNull r then .raised "Cannot read properties of null" w
    else appendRows rest { w with partsBody := w.partsBody ++ [r] }

/-- The call `rows.map(r => ...)` of the dashboards: a value that is not an
array has no `map`, and a `null` row raises. -/
def mapRows (rows : JVal) : Except String (List JVal) :=
  match rows with
  | .arr xs => if xs.any isNull then .error "Cannot read properties of null" else .ok xs
  | _ => .error "rows.map is not a function"

/-- Number of UTF-16 code units of a string. -/
def utf16Length (s : String) : Nat :=
  (s.data.map fun c => if c.toNat < 0x10000 then 1 else 2).sum

/-- The property read `lines.length`. -/
def lengthOf : JVal → Except String (Option JVal)
  | .null => .error "Cannot read properties of null"
  | .arr xs => .ok (some (.num xs.length))
  | .str s => .ok (some (.num (utf16Length s)))
  | .obj kvs => .ok (getProp kvs "length")
  | _ => .ok none

/-- The test `x === 0`. -/
def isZero : Option JVal → Bool
  | some (.num n) => decide (n = 0)
  | _ => false

/-- The test `!x`. -/
def falsy : Option JVal → Bool
  | none => true
  | some .null => true
  | some (.bool b) => !b
  | some (.num n) => decide (n = 0)
  | some (.str s) => !truthy s
  | some _ => false

/-- The call `lines.map(d => ... d.part_no ...)` of `refreshSummary`. -/
def mapLines (lines : JVal) : Except String (List (Option JVal)) :=
  match lines with
  | .arr xs =>
    if xs.any isNull then .error "Cannot read properties of null"
    else .ok (xs.map fun d => readProp d "part_no")
  | _ => .error "lines.map is not a function"

/-! ## The requests the script builds -/

/-- The request of `listParts`: `fetch(url)` with no options. -/
def partsRequest (w : World) : Request :=
  let q := trim w.form.search
  ⟨.GET, "/parts", if truthy q then [("search", q)] else [], [], none⟩

/-- The request of `loadStock`. -/
def stockRequest (w : World) : Request :=
  let q := trim w.form.dash_search
  let u := setIfTruthy [] "search" q
  ⟨.GET, "/stock", u, headers w, none⟩

/-- The request of `loadLedger`. -/
def ledgerRequest (w : World) : Request :=
  let u := setIfTruthy [] "action" w.form.lg_action
  let u := setIfTruthy u "part_no" (trim w.form.lg_part)
  let u := setIfTruthy u "work_order_no" (trim w.form.lg_wo)
  let u := setIfTruthy u "since" w.form.lg_since
  let u := setIfTruthy u "until" w.form.lg_until
  ⟨.GET, "/ledger", u, headers w, none⟩

/-- The request of `ensureCart`. -/
def cartRequest (w : World) : Request :=
  ⟨.POST, "/cart", [], headers w, none⟩

/-- The second request of `addSelected`, for the picked part. -/
def lineRequest (w : World) (part_no : String) : Request :=
  let u := setParam [] "part_no" part_no
  ⟨.POST, "/cart/lines", u, headers w, none⟩

/-- The request of `refreshSummary`. -/
def summaryRequest (w : World) : Request :=
  ⟨.GET, "/cart/summary", [], headers w, none⟩

/-- The request of `commitCheckout`, for the trimmed work order. -/
def commitRequest (w : World) : Request :=
  let wo := trim w.form.wo
  let u := setParam [] "work_order_no" wo
  ⟨.POST, "/checkout/commit", u, headers w, none⟩

/-- The request of `clearSummary`. -/
def clearRequest (w : World) : Request :=
  ⟨.DELETE, "/cart/clear", [], headers w, none⟩

/-- The request of `checkIn`: a form body with the three trimmed fields. -/
def checkinRequest (w : World) : Request :=
  let p := trim w.form.in_part
  let wo := trim w.form.in_wo
  let vc := trim w.form.in_claim
  let form := [("part_no", p), ("work_order_no", wo), ("vendor_claim_no", vc)]
  ⟨.POST, "/checkin", [], headers w, some form⟩

/-! ## Renderers and workflow controllers -/

/-- The function `listParts()`. -/
def listParts (srv : Server) (w : World) : Outcome Unit :=
  (fetch srv (partsRequest w) w).andThen fun res w1 =>
  (readJson res w1).andThen fun data w2 =>
  let w3 := { w2 with partsBody := [], form := { w2.form with partPick := none } }
  match data with
  | .arr rows => appendRows rows w3
  | _ => .raised "data.forEach is not a function" w3

/-- The function `loadStock()`. -/
def loadStock (srv : Server) (w : World) : Outcome Unit :=
  match identOk w with
  | (false, w0) => .done () w0
  | (true, w0) =>
    (fetch srv (stockRequest w0) w0).andThen fun res w1 =>
    if !res.ok then .done () (statusMsg ("Stock error: " ++ res.text) "error" w1)
    else
      (readJson res w1).andThen fun rows w2 =>
      match mapRows rows with
      | .error e => .raised e w2
      | .ok xs => .done () { w2 with stockBody := xs, lastStock := some xs }

/-- The function `loadLedger()`. -/
def loadLedger (srv : Server) (w : World) : Outcome Unit :=
  match identOk w with
  | (false, w0) => .done () w0
  | (true, w0) =>
    (fetch srv (ledgerRequest w0) w0).andThen fun res w1 =>
    if !res.ok then .done () (statusMsg ("Ledger error: " ++ res.text) "error" w1)
    else
      (readJson res w1).andThen fun rows w2 =>
      match mapRows rows with
      | .error e => .raised e w2
      | .ok xs => .done () { w2 with ledgerBody := xs }

/-- The function `ensureCart()`. -/
def ensureCart (srv : Server) (w : World) : Outcome JVal :=
  match identOk w with
  | (false, w0) => .raised "Missing identity" w0
  | (true, w0) =>
    (fetch srv (cartRequest w0) w0).andThen fun res w1 =>
    if !res.ok then .raised "Create cart failed" w1
    else readJson res w1

/-- The function `refreshSummary()`. -/
def refreshSummary (srv : Server) (w : World) : Outcome Unit :=
  (fetch srv (summaryRequest w) w).andThen fun res w1 =>
  if !res.ok then
    .done () { w1 with summary := .text "None selected.", commitDisabled := true }
  else
    (readJson res w1).andThen fun lines w2 =>
    match lengthOf lines with
    | .error e => .raised e w2
    | .ok len =>
      let w3 := { w2 with commitDisabled := isZero len }
      if falsy len then .done () { w3 with summary := .text "None selected." }
      else
        match mapLines lines with
        | .error e => .raised e w3
        | .ok ps => .done () { w3 with summary := .lines ps }

/-- The function `addSelected()`. -/
def addSelected (srv : Server) (w : World) : Outcome Unit :=
  match w.form.partPick with
  | none => .done () (statusMsg "Pick a part first" "error" w)
  | some pick =>
    (ensureCart srv w).andThen fun _ w1 =>
    let part_no := pick
    (fetch srv (lineRequest w1 part_no) w1).andThen fun res w2 =>
    if !res.ok then .done () (statusMsg ("Add failed: " ++ res.text) "error" w2)
    else refreshSummary srv (statusMsg ("Added " ++ part_no ++ " to summary") "success" w2)

/-- The function `commitCheckout()`. -/
def commitCheckout (srv : Server) (w : World) : Outcome Unit :=
  match identOk w with
  | (false, w0) => .done () w0
  | (true, w0) =>
    let wo := trim w0.form.wo
    if !truthy wo then .done () (statusMsg "Enter a Work Order number" "error" w0)
    else
      Outcome.tryCatch
        ((fetch srv (commitRequest w0) w0).andThen fun res w1 =>
         if !res.ok then .done () (statusMsg ("Checkout failed: " ++ res.text) "error" w1)
         else
           (refreshSummary srv (statusMsg ("Issued parts to " ++ wo) "success" w1)).andThen
             fun _ w2 => listParts srv w2)
        (fun e w1 => .done () (statusMsg e "error" w1))

/-- The function `clearSummary()`. -/
def clearSummary (srv : Server) (w : World) : Outcome Unit :=
  match identOk w with
  | (false, w0) => .done () w0
  | (true, w0) =>
    Outcome.tryCatch
      ((fetch srv (clearRequest w0) w0).andThen fun res w1 =>
       if !res.ok then .done () (statusMsg ("Clear failed: " ++ res.text) "error" w1)
       else refreshSummary srv (statusMsg "Cleared cart" "success" w1))
      (fun e w1 => .done () (statusMsg e "error" w1))

/-- The function `checkIn()`. -/
def checkIn (srv : Server) (w : World) : Outcome Unit :=
  let p := trim w.form.in_part
  let wo := trim w.form.in_wo
  let vc := trim w.form.in_claim
  if !(truthy p && truthy wo && truthy vc) then
    .done () (statusMsg "Fill Part, Work Order, and Vendor Claim" "error" w)
  else
    (fetch srv (checkinRequest w) w).andThen fun res w1 =>
    if !res.ok then .done () (statusMsg ("Check-in failed: " ++ res.text) "error" w1)
    else listParts srv (statusMsg ("Checked in " ++ p ++ " to " ++ wo) "success" w1)

/-- The handler of `window.onload`, up to the wiring of the buttons. -/
def onload (srv : Server) (w : World) : Outcome Unit :=
  (listParts srv (loadIdent w)).andThen fun _ w1 =>
  (refreshSummary srv w1).andThen fun _ w2 =>
  (loadStock srv w2).andThen fun _ w3 =>
  loadLedger srv w3

/-- The workflow controllers. -/
inductive Controller where
  | addSelected
  | refreshSummary
  | commitCheckout
  | clearSummary
  | checkIn
  | loadStock
  | loadLedger
  deriving DecidableEq

/-- Running a controller. -/
def Controller.run (c : Controller) (srv : Server) (w : World) : Outcome Unit :=
  match c with
  | .addSelected => SpareParts.addSelected srv w
  | .refreshSummary => SpareParts.refreshSummary srv w
  | .commitCheckout => SpareParts.commitCheckout srv w
  | .clearSummary => SpareParts.clearSummary srv w
  | .checkIn => SpareParts.checkIn srv w
  | .loadStock => SpareParts.loadStock srv w
  | .loadLedger => SpareParts.loadLedger srv w

/-! ## Sample worlds and backends -/

/-- A blank page with the default identity typed in and nothing stored. -/
def blank : World :=
  { form := ⟨"admin@example.com", "PartsAdmin", "", "", "", "", "", "", "", "", "", "", "", none⟩
    storage := ⟨none, none⟩
    status := ⟨"muted", ""⟩
    partsBody := []
    summary := .text ""
    commitDisabled := false
    stockBody := []
    ledgerBody := []
    lastStock := none
    requests := [] }

/-- A backend answering every request with `200` and an empty array. -/
def okServer : Server := fun _ => .resp true "[]" (.ok (.arr []))

/-- A backend answering every request with a non-2xx response. -/
def failServer : Server := fun _ => .resp false "denied" (.error "Unexpected token")

/-! ## Predicates on runs -/

/-- How the script stamps a request: identity headers taken from the form
fields of `w` on every path but `/parts`, no header on `/parts`. -/
def Stamped (w : World) (q : Request) : Prop :=
  (q.path ≠ "/parts" →
    q.headers = [("x-user-upn", trim w.form.upn), ("x-user-role", w.form.role)]) ∧
  (q.path = "/parts" → q.headers = [])

/-- The world `v` comes after `w`: same identity fields, and the log of `v`
extends the log of `w` by requests stamped from those fields. -/
def Tracks (w v : World) : Prop :=
  v.form.upn = w.form.upn ∧ v.form.role = w.form.role ∧
  ∃ new, v.requests = w.requests ++ new ∧ ∀ q ∈ new, Stamped w q

/-- The handler completed, left the error status with message `msg`, and
issued exactly the requests `sent`. -/
def Reported (w : World) (sent : List Request) (msg : String) (o : Outcome Unit) : Prop :=
  o.isRaised = false ∧ o.world.status = ⟨"error", msg⟩ ∧ o.world.requests = w.requests ++ sent

/-! ## Basic facts -/

theorem truthy_eq_true (s : String) : truthy s = true ↔ s ≠ "" := by
  simp [truthy]

theorem truthy_eq_false (s : String) : truthy s = false ↔ s = "" := by
  simp [truthy]

theorem identOk_fst (w : World) :
    (identOk w).1 = (truthy (trim w.form.upn) && truthy w.form.role) := by
  cases h1 : truthy (trim w.form.upn) <;> cases h2 : truthy w.form.role <;>
    simp [identOk, h1, h2]

theorem identOk_of_true (w : World) (h : (identOk w).1 = true) : identOk w = (true, w) := by
  rw [identOk_fst] at h
  simp only [Bool.and_eq_true] at h
  simp [identOk, h.1, h.2]

theorem identOk_of_false (w : World) (h : (identOk w).1 = false) :
    identOk w = (false, statusMsg "Set User (UPN) and Role, then click Save" "error" w) := by
  rw [identOk_fst] at h
  cases h1 : truthy (trim w.form.upn) <;> cases h2 : truthy w.form.role <;>
    simp_all [identOk]

/-- On a fresh page and a backend answering 200 with empty arrays, the load
handler restores the default identity and issues its four requests in order. -/
theorem onload_requests :
    (onload okServer blank).isRaised = false ∧
    (onload okServer blank).world.requests =
      [⟨.GET, "/parts", [], [], none⟩,
       ⟨.GET, "/cart/summary", [],
         [("x-user-upn", "admin@example.com"), ("x-user-role", "PartsAdmin")], none⟩,
       ⟨.GET, "/stock", [],
         [("x-user-upn", "admin@example.com"), ("x-user-role", "PartsAdmin")], none⟩,
       ⟨.GET, "/ledger", [],
         [("x-user-upn", "admin@example.com"), ("x-user-role", "PartsAdmin")], none⟩] := by
  decide

/-! ## Identity store -/

/-- C1, as the code has it: `identOk` returns false exactly when the principal
is empty after trimming or the role field itself is empty (the role is not
trimmed), and whenever it returns false the status is the error message
asking for user and role. -/
theorem identOk_false_iff (w : World) :
    ((identOk w).1 = false ↔ (trim w.form.upn = "" ∨ w.form.role = "")) ∧
    ((identOk w).1 = false →
      (identOk w).2.status = ⟨"error", "Set User (UPN) and Role, then click Save"⟩) := by
  constructor
  · rw [identOk_fst]
    cases h1 : truthy (trim w.form.upn) <;> cases h2 : truthy w.form.role <;>
      simp_all [truthy_eq_true, truthy_eq_false]
  · intro h
    rw [identOk_of_false w h]
    rfl

/-- C1, witness: a page with an empty principal. -/
theorem identOk_false_iff_witness :
    (identOk { blank with form := { blank.form with upn := "  " } }).2.status =
      ⟨"error", "Set User (UPN) and Role, then click Save"⟩ :=
  (identOk_false_iff { blank with form := { blank.form with upn := "  " } }).2 (by decide)

/-- C1, counterexample: a role made of white space only is empty after
trimming, yet `identOk` returns true and leaves the status alone. -/
theorem identOk_whitespace_role :
    trim " " = "" ∧
    (identOk { blank with form := { blank.form with upn := "a", role := " " } }).1 = true ∧
    (identOk { blank with form := { blank.form with upn := "a", role := " " } }).2.status =
      blank.status := by
  decide

/-- C4, as the code has it: after `saveIdent` and `loadIdent` the principal
field holds the trimmed principal, or the default when that is empty, and the
role field holds the role, or the default when it is empty; the other fields
are untouched. So a non-empty principal without surrounding white space and a
non-empty role come back exactly. -/
theorem save_then_load (w : World) :
    (loadIdent (saveIdent w)).form =
      { w.form with
        upn := if trim w.form.upn = "" then "admin@example.com" else trim w.form.upn
        role := if w.form.role = "" then "PartsAdmin" else w.form.role } ∧
    (trim w.form.upn = w.form.upn → w.form.upn ≠ "" → w.form.role ≠ "" →
      (loadIdent (saveIdent w)).form = w.form) := by
  have key : (loadIdent (saveIdent w)).form =
      { w.form with
        upn := if trim w.form.upn = "" then "admin@example.com" else trim w.form.upn
        role := if w.form.role = "" then "PartsAdmin" else w.form.role } := by
    simp only [loadIdent, saveIdent, statusMsg, orDefault, truthy]
    by_cases h1 : trim w.form.upn = "" <;> by_cases h2 : w.form.role = "" <;> simp [h1, h2]
  refine ⟨key, ?_⟩
  intro ht hu hr
  rw [key, ht]
  simp [hu, hr]

/-- C4, witness: the default identity comes back as it was typed. -/
theorem save_then_load_witness : (loadIdent (saveIdent blank)).form = blank.form :=
  (save_then_load blank).2 (by decide) (by decide) (by decide)

/-- C4, counterexample: a principal typed with surrounding blanks comes back
trimmed, and an empty one comes back as the default. -/
theorem save_then_load_not_exact :
    (loadIdent (saveIdent { blank with form := { blank.form with upn := " a " } })).form.upn
      = "a" ∧
    (loadIdent (saveIdent { blank with form := { blank.form with upn := "" } })).form.upn
      = "admin@example.com" ∧
    (loadIdent (saveIdent { blank with form := { blank.form with role := "" } })).form.role
      = "PartsAdmin" := by
  decide

/-- C5, as the code has it: `loadIdent` is total and, for each key on its
own, yields the stored value when a non-empty value is stored and the fixed
default when nothing or the empty string is stored; it touches no other
field, and with nothing saved it yields exactly the two defaults. -/
theorem loadIdent_spec (w : World) :
    (loadIdent w).form =
      { w.form with
        upn := match w.storage.upn with
          | some s => if s = "" then "admin@example.com" else s
          | none => "admin@example.com"
        role := match w.storage.role with
          | some s => if s = "" then "PartsAdmin" else s
          | none => "PartsAdmin" } ∧
    (w.storage = ⟨none, none⟩ →
      (loadIdent w).form.upn = "admin@example.com" ∧ (loadIdent w).form.role = "PartsAdmin") := by
  constructor
  · simp only [loadIdent, orDefault, truthy]
    rcases hu : w.storage.upn with _ | u <;> rcases hr : w.storage.role with _ | r
    · simp
    · by_cases h2 : r = "" <;> simp [h2]
    · by_cases h1 : u = "" <;> simp [h1]
    · by_cases h1 : u = "" <;> by_cases h2 : r = "" <;> simp [h1, h2]
  · intro h
    simp [loadIdent, orDefault, h]

/-- C5, witness: nothing saved. -/
theorem loadIdent_spec_witness :
    (loadIdent blank).form.upn = "admin@example.com" ∧
    (loadIdent blank).form.role = "PartsAdmin" :=
  (loadIdent_spec blank).2 rfl

/-- C5, counterexample: with the empty string stored under `upn` (what
`saveIdent` writes for an empty principal field) and under `role`,
`loadIdent` yields the defaults, not the stored values. -/
theorem loadIdent_empty_stored :
    (loadIdent { blank with storage := ⟨some "", some ""⟩ }).form.upn ≠ "" ∧
    (loadIdent { blank with storage := ⟨some "", some ""⟩ }).form.role ≠ "" ∧
    (saveIdent { blank with form := { blank.form with upn := " ", role := "" } }).storage
      = ⟨some "", some ""⟩ := by
  decide

/-! ## CSV export -/

theorem getProp_head (k : String) (v : JVal) (rest : Record) :
    getProp ((k, v) :: rest) k = some v := by
  simp [getProp]

theorem getProp_tail (k h : String) (v : JVal) (rest : Record) (hne : k ≠ h) :
    getProp ((k, v) :: rest) h = getProp rest h := by
  simp [getProp, hne]

/-- Reading every own key of a record with distinct keys yields its values in order. -/
theorem map_getProp_keys (f : Option JVal → String) (r : Record)
    (hk : (r.map Prod.fst).Nodup) :
    (r.map Prod.fst).map (fun h => f (getProp r h)) = r.map (fun kv => f (some kv.2)) := by
  induction r with
  | nil => rfl
  | cons kv rest ih =>
    obtain ⟨k, v⟩ := kv
    simp only [List.map_cons, List.nodup_cons] at hk ⊢
    rw [getProp_head]
    congr 1
    rw [← ih hk.2]
    apply List.map_congr_left
    intro h hh
    rw [getProp_tail]
    intro hkh
    exact hk.1 (hkh ▸ hh)

/-- C6, as the code has it: the empty list gives the empty string, and a
non-empty list of records of one shape (the keys of the first record,
distinct, in the same order in every record) gives the field names joined by
commas and then one line per record in input order, lines joined by a single
newline with none at the end; each line is the record's values joined by
commas, each value JSON-encoded after `null` has been replaced by the empty
string. On `[{a:1,b:"x"}]` the text is `a,b` and then `1,"x"`. -/
theorem toCSV_lines (first : Record) (rest : List Record)
    (hkeys : (first.map Prod.fst).Nodup)
    (hshape : ∀ r ∈ rest, r.map Prod.fst = first.map Prod.fst) :
    toCSV [] = "" ∧
    toCSV (first :: rest) =
      join "\n" (join "," (first.map Prod.fst) ::
        (first :: rest).map fun r => join "," (r.map fun kv => stringify (orEmpty (some kv.2)))) ∧
    toCSV [[("a", .num 1), ("b", .str "x")]] = "a,b\n1,\"x\"" := by
  refine ⟨rfl, ?_, by decide⟩
  have hrow : ∀ r ∈ first :: rest,
      join "," ((first.map Prod.fst).map fun h => stringify (orEmpty (getProp r h))) =
      join "," (r.map fun kv => stringify (orEmpty (some kv.2))) := by
    intro r hr
    have hs : r.map Prod.fst = first.map Prod.fst := by
      rcases List.mem_cons.1 hr with h | h
      · rw [h]
      · exact hshape r h
    rw [← hs, map_getProp_keys (fun o => stringify (orEmpty o)) r (hs ▸ hkeys)]
  simp only [toCSV]
  rw [List.map_congr_left hrow]
  simp [join]

/-- C6, witness: two stock rows of one shape. -/
theorem toCSV_lines_witness :
    toCSV [[("part_no", .str "P1"), ("available", .num 2)],
           [("part_no", .str "P2"), ("available", .num 0)]] =
      join "\n" [join "," ["part_no", "available"],
        join "," [stringify (.str "P1"), stringify (.num 2)],
        join "," [stringify (.str "P2"), stringify (.num 0)]] :=
  (toCSV_lines [("part_no", .str "P1"), ("available", .num 2)]
    [[("part_no", .str "P2"), ("available", .num 0)]] (by decide) (by decide)).2.1

/-- C6, counterexample: a record whose value is `null` (a part without a
location) is written as the empty string in quotes, not as the JSON encoding
`null` of its value. -/
theorem toCSV_null_cell :
    toCSV [[("location", .null)]] = "location\n\"\"" ∧
    toCSV_asSpecified [[("location", .null)]] = "location\nnull" ∧
    toCSV [[("location", .null)]] ≠ toCSV_asSpecified [[("location", .null)]] := by
  decide

/-! ## Ledger query -/

theorem setIfTruthy_nil (k v : String) :
    setIfTruthy [] k v = [(k, v)].filter (fun kv => decide (kv.2 ≠ "")) := by
  by_cases h : v = "" <;> simp [setIfTruthy, setParam, truthy, h]

/-- The five conditional `searchParams.set` calls of `loadLedger` leave the
supplied filters, in order. -/
theorem ledger_query (a p wo s un : String) :
    setIfTruthy (setIfTruthy (setIfTruthy (setIfTruthy (setIfTruthy [] "action" a)
      "part_no" p) "work_order_no" wo) "since" s) "until" un =
    [("action", a), ("part_no", p), ("work_order_no", wo), ("since", s), ("until", un)].filter
      (fun kv => decide (kv.2 ≠ "")) := by
  by_cases h1 : a = "" <;> by_cases h2 : p = "" <;> by_cases h3 : wo = "" <;>
    by_cases h4 : s = "" <;> by_cases h5 : un = "" <;>
    simp [setIfTruthy, setParam, truthy, h1, h2, h3, h4, h5]

/-- The request `loadLedger` sends. -/
theorem loadLedger_requests (srv : Server) (w : World) (hid : (identOk w).1 = true) :
    (loadLedger srv w).world.requests = w.requests ++
      [⟨.GET, "/ledger",
        [("action", w.form.lg_action), ("part_no", trim w.form.lg_part),
         ("work_order_no", trim w.form.lg_wo), ("since", w.form.lg_since),
         ("until", w.form.lg_until)].filter (fun kv => decide (kv.2 ≠ "")),
        [("x-user-upn", trim w.form.upn), ("x-user-role", w.form.role)], none⟩] := by
  simp only [loadLedger, ledgerRequest, identOk_of_true w hid, ledger_query, fetch, headers]
  rcases srv _ with e | ⟨ok, t, j⟩
  · rfl
  · cases ok
    · rfl
    · rcases j with e | v
      · rfl
      · simp only [Outcome.andThen, readJson, Bool.not_true, Bool.false_eq_true, if_false]
        cases mapRows v <;> rfl

/-- C7, as the code has it: with a complete identity `loadLedger` issues one
request, a GET of `/ledger` whose query holds, in the order action, part_no,
work_order_no, since, until, exactly the filters whose value is non-empty,
the value being the field as typed for action, since and until and the
trimmed field for part_no and work_order_no; nothing else is in the query.
With action `ISSUE` and part `P100` only, the query is those two parameters. -/
theorem loadLedger_query (srv : Server) (w : World) (hid : (identOk w).1 = true) :
    (loadLedger srv w).world.requests = w.requests ++
      [⟨.GET, "/ledger",
        [("action", w.form.lg_action), ("part_no", trim w.form.lg_part),
         ("work_order_no", trim w.form.lg_wo), ("since", w.form.lg_since),
         ("until", w.form.lg_until)].filter (fun kv => decide (kv.2 ≠ "")),
        [("x-user-upn", trim w.form.upn), ("x-user-role", w.form.role)], none⟩] ∧
    (w.form.lg_action = "ISSUE" → w.form.lg_part = "P100" → w.form.lg_wo = "" →
      w.form.lg_since = "" → w.form.lg_until = "" →
      (loadLedger srv w).world.requests = w.requests ++
        [⟨.GET, "/ledger", [("action", "ISSUE"), ("part_no", "P100")],
          [("x-user-upn", trim w.form.upn), ("x-user-role", w.form.role)], none⟩]) := by
  refine ⟨loadLedger_requests srv w hid, ?_⟩
  intro h1 h2 h3 h4 h5
  rw [loadLedger_requests srv w hid, h1, h2, h3, h4, h5]
  have hq : List.filter (fun kv : String × String => decide (kv.2 ≠ ""))
      [("action", "ISSUE"), ("part_no", trim "P100"), ("work_order_no", trim ""),
        ("since", ""), ("until", "")] = [("action", "ISSUE"), ("part_no", "P100")] := by
    decide
  rw [hq]

/-- C7, witness: the default identity, action `ISSUE` and part `P100`. -/
theorem loadLedger_query_witness :
    (loadLedger okServer { blank with form := { blank.form with
        lg_action := "ISSUE", lg_part := "P100" } }).world.requests =
      [⟨.GET, "/ledger", [("action", "ISSUE"), ("part_no", "P100")],
        [("x-user-upn", "admin@example.com"), ("x-user-role", "PartsAdmin")], none⟩] :=
  (loadLedger_query okServer { blank with form := { blank.form with
      lg_action := "ISSUE", lg_part := "P100" } } (by decide)).2 rfl rfl rfl rfl rfl

/-- C7, counterexample: a part filter holding one blank is a non-empty field,
yet the query carries no `part_no` parameter; and a part filter typed with
surrounding blanks is sent trimmed, not as supplied. -/
theorem loadLedger_blank_part :
    (loadLedger okServer { blank with form := { blank.form with lg_part := " " } }).world.requests
      = [⟨.GET, "/ledger", [],
          [("x-user-upn", "admin@example.com"), ("x-user-role", "PartsAdmin")], none⟩] ∧
    (loadLedger okServer { blank with form := { blank.form with lg_part := " P100 " } }).world.requests
      = [⟨.GET, "/ledger", [("part_no", "P100")],
          [("x-user-upn", "admin@example.com"), ("x-user-role", "PartsAdmin")], none⟩] := by
  decide

/-! ## Checkout and check-in -/

/-- C8, as the code has it: when the work-order field is empty after trimming,
`commitCheckout` completes without issuing a request and with an error
status; the message is `Enter a Work Order number` when the identity is
complete, and the message of `identOk` when it is not. -/
theorem commitCheckout_empty_wo (srv : Server) (w : World) (hwo : trim w.form.wo = "") :
    (commitCheckout srv w).world.requests = w.requests ∧
    (commitCheckout srv w).isRaised = false ∧
    (commitCheckout srv w).world.status.className = "error" ∧
    ((identOk w).1 = true →
      (commitCheckout srv w).world.status.textContent = "Enter a Work Order number") ∧
    ((identOk w).1 = false →
      (commitCheckout srv w).world.status.textContent =
        "Set User (UPN) and Role, then click Save") := by
  cases hid : (identOk w).1
  · simp [commitCheckout, identOk_of_false w hid, statusMsg, Outcome.world, Outcome.isRaised,
      truthy]
  · simp [commitCheckout, identOk_of_true w hid, statusMsg, Outcome.world, Outcome.isRaised,
      truthy, hwo]

/-- C8, witness: the default identity and a work-order field of blanks. -/
theorem commitCheckout_empty_wo_witness :
    (commitCheckout okServer { blank with form := { blank.form with wo := "  " } }).world.requests
      = [] ∧
    (commitCheckout okServer { blank with form := { blank.form with wo := "  " } }
      ).world.status.textContent = "Enter a Work Order number" :=
  have h := commitCheckout_empty_wo okServer
    { blank with form := { blank.form with wo := "  " } } (by decide)
  ⟨h.1, h.2.2.2.1 (by decide)⟩

/-- C8, counterexample: with an empty work-order field and an empty principal
the status message is the one of `identOk`, not `Enter a Work Order number`. -/
theorem commitCheckout_empty_wo_no_identity :
    trim ({ blank with form := { blank.form with upn := "", wo := "" } } : World).form.wo = "" ∧
    (commitCheckout okServer { blank with form := { blank.form with upn := "", wo := "" } }
      ).world.status = ⟨"error", "Set User (UPN) and Role, then click Save"⟩ := by
  decide

/-! ## Request log -/

theorem fetch_world (srv : Server) (req : Request) (w : World) :
    (fetch srv req w).world = { w with requests := w.requests ++ [req] } := by
  unfold fetch
  simp only
  cases srv (w.requests ++ [req]) <;> rfl

theorem fetch_of_resp (srv : Server) (req : Request) (w : World) (ok : Bool) (t : String)
    (j : Except String JVal) (h : srv (w.requests ++ [req]) = .resp ok t j) :
    fetch srv req w = .done ⟨ok, t, j⟩ { w with requests := w.requests ++ [req] } := by
  simp [fetch, h]

theorem readJson_world (res : Response) (w : World) : (readJson res w).world = w := by
  unfold readJson
  cases res.json <;> rfl

theorem appendRows_world (rows : List JVal) (w : World) :
    (appendRows rows w).world.requests = w.requests ∧
    (appendRows rows w).world.form = w.form ∧
    (appendRows rows w).world.status = w.status := by
  induction rows generalizing w with
  | nil => exact ⟨rfl, rfl, rfl⟩
  | cons r rest ih =>
    unfold appendRows
    by_cases h : isNull r = true
    · simp [h, Outcome.world]
    · simp only [h]
      exact ih _

theorem tracks_of_eq {w v : World} (hu : v.form.upn = w.form.upn)
    (hr : v.form.role = w.form.role) (hq : v.requests = w.requests) : Tracks w v :=
  ⟨hu, hr, [], by simp [hq], by simp⟩

theorem tracks_refl (w : World) : Tracks w w := tracks_of_eq (Eq.refl _) (Eq.refl _) (Eq.refl _)

theorem tracks_trans {w v u : World} (h1 : Tracks w v) (h2 : Tracks v u) : Tracks w u := by
  obtain ⟨hu1, hr1, n1, hq1, hs1⟩ := h1
  obtain ⟨hu2, hr2, n2, hq2, hs2⟩ := h2
  refine ⟨hu2.trans hu1, hr2.trans hr1, n1 ++ n2, by rw [hq2, hq1, List.append_assoc], ?_⟩
  intro q hq
  rcases List.mem_append.1 hq with h | h
  · exact hs1 q h
  · have := hs2 q h
    simpa [Stamped, hu1, hr1] using this

theorem tracks_fetch (srv : Server) (req : Request) (w : World) (h : Stamped w req) :
    Tracks w (fetch srv req w).world := by
  rw [fetch_world]
  exact ⟨rfl, rfl, [req], rfl, by simpa using h⟩

theorem tracks_andThen {α β : Type} {w : World} {o : Outcome α} {k : α → World → Outcome β}
    (h1 : Tracks w o.world) (h2 : ∀ a v, Tracks v (k a v).world) :
    Tracks w (o.andThen k).world := by
  cases o with
  | done a v => exact tracks_trans h1 (h2 a v)
  | raised e v => exact h1

theorem tracks_tryCatch {α : Type} {w : World} {o : Outcome α} {h : String → World → Outcome α}
    (h1 : Tracks w o.world) (h2 : ∀ e v, Tracks v (h e v).world) :
    Tracks w (o.tryCatch h).world := by
  cases o with
  | done a v => exact h1
  | raised e v => exact tracks_trans h1 (h2 e v)

theorem tracks_statusMsg (msg type : String) (w : World) : Tracks w (statusMsg msg type w) :=
  tracks_of_eq rfl rfl rfl

theorem tracks_identOk (w : World) : Tracks w (identOk w).2 := by
  cases h : (identOk w).1
  · rw [identOk_of_false w h]; exact tracks_statusMsg _ _ w
  · rw [identOk_of_true w h]; exact tracks_refl w

theorem tracks_readJson (res : Response) (w : World) : Tracks w (readJson res w).world := by
  rw [readJson_world]; exact tracks_refl w

theorem stamped_headers (w : World) (m : Method) (path : String)
    (q : List (String × String)) (b : Option (List (String × String)))
    (hp : path ≠ "/parts") : Stamped w ⟨m, path, q, headers w, b⟩ :=
  ⟨fun _ => rfl, fun h => absurd h hp⟩

theorem tracks_listParts (srv : Server) (w : World) : Tracks w (listParts srv w).world := by
  unfold listParts
  refine tracks_andThen (tracks_fetch _ _ _ ⟨fun h => absurd rfl h, fun _ => rfl⟩) ?_
  intro res w1
  refine tracks_andThen (tracks_readJson _ _) ?_
  intro data w2
  cases data with
  | arr rows =>
    have h := appendRows_world rows
      { w2 with partsBody := [], form := { w2.form with partPick := none } }
    exact tracks_of_eq (by rw [h.2.1]) (by rw [h.2.1]) (by rw [h.1])
  | _ => exact tracks_of_eq rfl rfl rfl

theorem tracks_refreshSummary (srv : Server) (w : World) :
    Tracks w (refreshSummary srv w).world := by
  unfold refreshSummary
  refine tracks_andThen (tracks_fetch _ _ _ (stamped_headers w _ _ _ _ (by decide))) ?_
  intro res w1
  split
  · exact tracks_of_eq rfl rfl rfl
  · refine tracks_andThen (tracks_readJson _ _) ?_
    intro lines w2
    split
    · exact tracks_refl _
    · simp only
      split
      · exact tracks_of_eq rfl rfl rfl
      · split <;> exact tracks_of_eq rfl rfl rfl

theorem tracks_loadStock (srv : Server) (w : World) : Tracks w (loadStock srv w).world := by
  unfold loadStock
  cases h : (identOk w).1
  · rw [identOk_of_false w h]; exact tracks_statusMsg _ _ w
  · rw [identOk_of_true w h]
    refine tracks_andThen (tracks_fetch _ _ _ (stamped_headers w _ _ _ _ (by decide))) ?_
    intro res w1
    split
    · exact tracks_statusMsg _ _ _
    · refine tracks_andThen (tracks_readJson _ _) ?_
      intro rows w2
      split <;> exact tracks_of_eq rfl rfl rfl

theorem tracks_loadLedger (srv : Server) (w : World) : Tracks w (loadLedger srv w).world := by
  unfold loadLedger
  cases h : (identOk w).1
  · rw [identOk_of_false w h]; exact tracks_statusMsg _ _ w
  · rw [identOk_of_true w h]
    refine tracks_andThen (tracks_fetch _ _ _ (stamped_headers w _ _ _ _ (by decide))) ?_
    intro res w1
    split
    · exact tracks_statusMsg _ _ _
    · refine tracks_andThen (tracks_readJson _ _) ?_
      intro rows w2
      split <;> exact tracks_of_eq rfl rfl rfl

theorem tracks_ensureCart (srv : Server) (w : World) : Tracks w (ensureCart srv w).world := by
  unfold ensureCart
  cases h : (identOk w).1
  · rw [identOk_of_false w h]; exact tracks_statusMsg _ _ w
  · rw [identOk_of_true w h]
    refine tracks_andThen (tracks_fetch _ _ _ (stamped_headers w _ _ _ _ (by decide))) ?_
    intro res w1
    split
    · exact tracks_refl _
    · exact tracks_readJson _ _

theorem tracks_addSelected (srv : Server) (w : World) : Tracks w (addSelected srv w).world := by
  unfold addSelected
  split
  · exact tracks_statusMsg _ _ w
  · refine tracks_andThen (tracks_ensureCart srv w) ?_
    intro _ w1
    refine tracks_andThen (tracks_fetch _ _ _ (stamped_headers w1 _ _ _ _ (by decide))) ?_
    intro res w2
    split
    · exact tracks_statusMsg _ _ _
    · exact tracks_trans (tracks_statusMsg _ _ w2) (tracks_refreshSummary srv _)

theorem tracks_commitCheckout (srv : Server) (w : World) :
    Tracks w (commitCheckout srv w).world := by
  unfold commitCheckout
  cases h : (identOk w).1
  · rw [identOk_of_false w h]; exact tracks_statusMsg _ _ w
  · rw [identOk_of_true w h]
    simp only
    split
    · exact tracks_statusMsg _ _ w
    · refine tracks_tryCatch (tracks_andThen
        (tracks_fetch _ _ _ (stamped_headers w _ _ _ _ (by decide))) ?_) ?_
      · intro res w1
        split
        · exact tracks_statusMsg _ _ _
        · refine tracks_andThen
            (tracks_trans (tracks_statusMsg _ _ w1) (tracks_refreshSummary srv _)) ?_
          intro _ w2
          exact tracks_listParts srv w2
      · intro e w1
        exact tracks_statusMsg _ _ _

theorem tracks_clearSummary (srv : Server) (w : World) :
    Tracks w (clearSummary srv w).world := by
  unfold clearSummary
  cases h : (identOk w).1
  · rw [identOk_of_false w h]; exact tracks_statusMsg _ _ w
  · rw [identOk_of_true w h]
    refine tracks_tryCatch (tracks_andThen
      (tracks_fetch _ _ _ (stamped_headers w _ _ _ _ (by decide))) ?_) ?_
    · intro res w1
      split
      · exact tracks_statusMsg _ _ _
      · exact tracks_trans (tracks_statusMsg _ _ w1) (tracks_refreshSummary srv _)
    · intro e w1
      exact tracks_statusMsg _ _ _

theorem tracks_checkIn (srv : Server) (w : World) : Tracks w (checkIn srv w).world := by
  unfold checkIn
  simp only
  split
  · exact tracks_statusMsg _ _ w
  · refine tracks_andThen (tracks_fetch _ _ _ (stamped_headers w _ _ _ _ (by decide))) ?_
    intro res w1
    split
    · exact tracks_statusMsg _ _ _
    · exact tracks_trans (tracks_statusMsg _ _ w1) (tracks_listParts srv _)

theorem tracks_run (c : Controller) (srv : Server) (w : World) :
    Tracks w (c.run srv w).world := by
  cases c
  · exact tracks_addSelected srv w
  · exact tracks_refreshSummary srv w
  · exact tracks_commitCheckout srv w
  · exact tracks_clearSummary srv w
  · exact tracks_checkIn srv w
  · exact tracks_loadStock srv w
  · exact tracks_loadLedger srv w

theorem listParts_requests (srv : Server) (w : World) :
    (listParts srv w).world.requests = w.requests ++ [partsRequest w] := by
  unfold listParts
  simp only [fetch]
  rcases srv _ with e | ⟨ok, t, j⟩
  · rfl
  · rcases j with e | v
    · rfl
    · simp only [Outcome.andThen, readJson]
      cases v with
      | arr rows => exact (appendRows_world rows _).1
      | _ => rfl

theorem refreshSummary_requests (srv : Server) (w : World) :
    (refreshSummary srv w).world.requests = w.requests ++ [summaryRequest w] := by
  unfold refreshSummary
  simp only [fetch]
  rcases srv _ with e | ⟨ok, t, j⟩
  · rfl
  · cases ok
    · rfl
    · rcases j with e | v
      · rfl
      · simp only [Outcome.andThen, readJson, Bool.not_true, Bool.false_eq_true, if_false]
        cases lengthOf v with
        | error e => rfl
        | ok len =>
          simp only
          cases falsy len
          · simp only [Bool.false_eq_true, if_false]
            cases mapLines v <;> rfl
          · rfl

theorem identOk_false_of_empty (w : World) (h : trim w.form.upn = "" ∨ w.form.role = "") :
    (identOk w).1 = false := by
  rw [identOk_fst]
  rcases h with h | h <;> simp [truthy, h]

/-! ## Identity headers -/

/-- C3, as the code has it: every request a controller issues to a path other
than `/parts` carries `x-user-upn` equal to the trimmed principal field and
`x-user-role` equal to the role field, as they stand at the call (no
controller changes them); the headers depend on the form fields only, not on
what is stored; and the requests to `/parts`, among them the one `listParts`
issues, carry no header. -/
theorem requests_stamped (c : Controller) (srv : Server) (w : World) :
    (∃ new, (c.run srv w).world.requests = w.requests ++ new ∧
      ∀ q ∈ new,
        (q.path ≠ "/parts" →
          q.headers = [("x-user-upn", trim w.form.upn), ("x-user-role", w.form.role)]) ∧
        (q.path = "/parts" → q.headers = [])) ∧
    ((c.run srv w).world.form.upn = w.form.upn ∧
      (c.run srv w).world.form.role = w.form.role) ∧
    (∀ st : Storage, headers { w with storage := st } = headers w) ∧
    headers w = [("x-user-upn", trim w.form.upn), ("x-user-role", w.form.role)] ∧
    (listParts srv w).world.requests = w.requests ++ [partsRequest w] ∧
    (partsRequest w).path = "/parts" ∧ (partsRequest w).headers = [] := by
  obtain ⟨hu, hr, new, hq, hs⟩ := tracks_run c srv w
  exact ⟨⟨new, hq, hs⟩, ⟨hu, hr⟩, fun _ => rfl, rfl, listParts_requests srv w, rfl, rfl⟩

/-- C3, counterexample: with the principal typed as ` a `, the request of
`loadStock` carries `x-user-upn: a`, which is not the value of the field. -/
theorem header_is_trimmed :
    (loadStock okServer { blank with form := { blank.form with upn := " a " } }).world.requests
      = [⟨.GET, "/stock", [], [("x-user-upn", "a"), ("x-user-role", "PartsAdmin")], none⟩] ∧
    ({ blank with form := { blank.form with upn := " a " } } : World).form.upn ≠ "a" := by
  decide

/-! ## Identity gate -/

/-- C2, as the code has it: when the principal (after trimming) or the role is
empty, `addSelected`, `commitCheckout`, `clearSummary`, `loadStock` and
`loadLedger` issue no request at all; `refreshSummary` has no identity check
of its own and issues its GET of `/cart/summary` with the headers of the
current fields whatever they hold. -/
theorem identity_gate (srv : Server) (w : World)
    (h : trim w.form.upn = "" ∨ w.form.role = "") :
    (addSelected srv w).world.requests = w.requests ∧
    (commitCheckout srv w).world.requests = w.requests ∧
    (clearSummary srv w).world.requests = w.requests ∧
    (loadStock srv w).world.requests = w.requests ∧
    (loadLedger srv w).world.requests = w.requests ∧
    (refreshSummary srv w).world.requests = w.requests ++
      [⟨.GET, "/cart/summary", [],
        [("x-user-upn", trim w.form.upn), ("x-user-role", w.form.role)], none⟩] := by
  have hid := identOk_of_false w (identOk_false_of_empty w h)
  refine ⟨?_, ?_, ?_, ?_, ?_, refreshSummary_requests srv w⟩
  · unfold addSelected
    cases w.form.partPick with
    | none => rfl
    | some pick => simp [ensureCart, hid, Outcome.andThen, Outcome.world, statusMsg]
  · simp [commitCheckout, hid, Outcome.world, statusMsg]
  · simp [clearSummary, hid, Outcome.world, statusMsg]
  · simp [loadStock, hid, Outcome.world, statusMsg]
  · simp [loadLedger, hid, Outcome.world, statusMsg]

/-- C2, witness: an empty principal. -/
theorem identity_gate_witness :
    (commitCheckout okServer { blank with form := { blank.form with upn := "" } }).world.requests
      = [] :=
  (identity_gate okServer { blank with form := { blank.form with upn := "" } }
    (Or.inl (by decide))).2.1

/-- C2, counterexample: with an empty principal `refreshSummary` still issues
its request, carrying the identity headers. -/
theorem refreshSummary_without_identity :
    trim ({ blank with form := { blank.form with upn := "" } } : World).form.upn = "" ∧
    (refreshSummary okServer { blank with form := { blank.form with upn := "" } }).world.requests
      = [⟨.GET, "/cart/summary", [], [("x-user-upn", ""), ("x-user-role", "PartsAdmin")],
          none⟩] := by
  decide

/-- With an empty principal and its three fields filled, `checkIn` posts to
`/checkin` with the identity headers: it does not call `identOk`, unlike
`commitCheckout`, `clearSummary`, `loadStock`, `loadLedger` and `ensureCart`. -/
theorem checkIn_without_identity :
    (identOk { blank with form := { blank.form with
        upn := "", in_part := "P1", in_wo := "W1", in_claim := "V1" } }).1 = false ∧
    (checkIn okServer { blank with form := { blank.form with
        upn := "", in_part := "P1", in_wo := "W1", in_claim := "V1" } }).world.requests =
      [⟨.POST, "/checkin", [], [("x-user-upn", ""), ("x-user-role", "PartsAdmin")],
         some [("part_no", "P1"), ("work_order_no", "W1"), ("vendor_claim_no", "V1")]⟩,
       ⟨.GET, "/parts", [], [], none⟩] := by
  decide

/-! ## Check-in -/

/-- C9: when one of the part, work-order and vendor-claim fields of the
check-in form is empty after trimming, `checkIn` completes without issuing a
request and with an error status. When the three are non-empty it issues one
POST of `/checkin` whose form body carries the three trimmed values as
`part_no`, `work_order_no` and `vendor_claim_no`, followed by nothing but the
GET of `/parts`; on a 2xx response it sets a success status and runs
`listParts` and nothing else, so the log is the POST and then the GET of
`/parts`. -/
theorem checkIn_spec (srv : Server) (w : World) :
    ((trim w.form.in_part = "" ∨ trim w.form.in_wo = "" ∨ trim w.form.in_claim = "") →
      (checkIn srv w).world.requests = w.requests ∧
      (checkIn srv w).isRaised = false ∧
      (checkIn srv w).world.status = ⟨"error", "Fill Part, Work Order, and Vendor Claim"⟩) ∧
    (trim w.form.in_part ≠ "" → trim w.form.in_wo ≠ "" → trim w.form.in_claim ≠ "" →
      ∀ req : Request, req = ⟨.POST, "/checkin", [],
          [("x-user-upn", trim w.form.upn), ("x-user-role", w.form.role)],
          some [("part_no", trim w.form.in_part), ("work_order_no", trim w.form.in_wo),
            ("vendor_claim_no", trim w.form.in_claim)]⟩ →
      ((checkIn srv w).world.requests = w.requests ++ [req] ∨
        (checkIn srv w).world.requests = w.requests ++ [req, partsRequest w]) ∧
      ((partsRequest w).method = .GET ∧ (partsRequest w).path = "/parts") ∧
      (∀ t j, srv (w.requests ++ [req]) = .resp true t j →
        checkIn srv w = listParts srv
          (statusMsg ("Checked in " ++ trim w.form.in_part ++ " to " ++ trim w.form.in_wo)
            "success" { w with requests := w.requests ++ [req] }) ∧
        (checkIn srv w).world.requests = w.requests ++ [req, partsRequest w])) := by
  constructor
  · intro h
    have hv : (truthy (trim w.form.in_part) && truthy (trim w.form.in_wo) &&
        truthy (trim w.form.in_claim)) = false := by
      rcases h with h | h | h <;> simp [truthy, h]
    have hrun : checkIn srv w =
        .done () (statusMsg "Fill Part, Work Order, and Vendor Claim" "error" w) := by
      simp only [checkIn, hv, Bool.not_false, if_true]
    rw [hrun]
    simp [Outcome.world, Outcome.isRaised, statusMsg, truthy]
  · intro hp hwo hvc req hreq
    have hv : (truthy (trim w.form.in_part) && truthy (trim w.form.in_wo) &&
        truthy (trim w.form.in_claim)) = true := by
      simp [truthy, hp, hwo, hvc]
    have hreq2 : req = checkinRequest w := hreq
    have hrun : checkIn srv w =
        (fetch srv req w).andThen fun res w1 =>
          if !res.ok then .done () (statusMsg ("Check-in failed: " ++ res.text) "error" w1)
          else listParts srv (statusMsg
            ("Checked in " ++ trim w.form.in_part ++ " to " ++ trim w.form.in_wo)
            "success" w1) := by
      rw [hreq2]
      simp only [checkIn, hv, Bool.not_true, Bool.false_eq_true, if_false]
    have hok : ∀ t j, srv (w.requests ++ [req]) = .resp true t j →
        checkIn srv w = listParts srv
          (statusMsg ("Checked in " ++ trim w.form.in_part ++ " to " ++ trim w.form.in_wo)
            "success" { w with requests := w.requests ++ [req] }) ∧
        (checkIn srv w).world.requests = w.requests ++ [req, partsRequest w] := by
      intro t j hs
      have he : checkIn srv w = listParts srv
          (statusMsg ("Checked in " ++ trim w.form.in_part ++ " to " ++ trim w.form.in_wo)
            "success" { w with requests := w.requests ++ [req] }) := by
        rw [hrun, fetch_of_resp srv req w true t j hs]
        simp [Outcome.andThen]
      refine ⟨he, ?_⟩
      rw [he, listParts_requests]
      simp [statusMsg, partsRequest]
    refine ⟨?_, ⟨rfl, rfl⟩, hok⟩
    rcases hs : srv (w.requests ++ [req]) with e | ⟨ok, t, j⟩
    · left
      rw [hrun]
      simp [fetch, hs, Outcome.andThen, Outcome.world]
    · cases ok
      · left
        rw [hrun, fetch_of_resp srv req w false t j hs]
        simp [Outcome.andThen, Outcome.world, statusMsg]
      · right
        exact (hok t j hs).2

/-- C9, witness: the three fields filled and a backend answering 200. -/
theorem checkIn_spec_witness :
    (checkIn okServer { blank with form := { blank.form with
        in_part := " P1 ", in_wo := "W1", in_claim := "V1" } }).world.requests =
      [⟨.POST, "/checkin", [],
         [("x-user-upn", "admin@example.com"), ("x-user-role", "PartsAdmin")],
         some [("part_no", "P1"), ("work_order_no", "W1"), ("vendor_claim_no", "V1")]⟩,
       ⟨.GET, "/parts", [], [], none⟩] :=
  ((checkIn_spec okServer { blank with form := { blank.form with
      in_part := " P1 ", in_wo := "W1", in_claim := "V1" } }).2
    (by decide) (by decide) (by decide) _ rfl).2.2 "[]" (.ok (.arr [])) rfl |>.2

/-! ## Failure reporting -/

/-- C10, as the code has it. A failed local validation (identity for
`commitCheckout`, `clearSummary`, `loadStock` and `loadLedger`; the work order
for `commitCheckout`; the three fields for `checkIn`; the picked part for
`addSelected`) makes the controller complete with an error status and no
request. A non-2xx response to the request of `commitCheckout`,
`clearSummary`, `checkIn`, `loadStock` or `loadLedger`, or to the add-line
request of `addSelected`, makes the controller complete with an error status
quoting the response text and no further request. `refreshSummary` on a
non-2xx response completes with no further request, shows `None selected.`
and disables the commit button, and leaves the status as it was. -/
theorem failures_reported (srv : Server) (w : World) (t : String) (j : Except String JVal) :
    ((identOk w).1 = false →
      Reported w [] "Set User (UPN) and Role, then click Save" (commitCheckout srv w) ∧
      Reported w [] "Set User (UPN) and Role, then click Save" (clearSummary srv w) ∧
      Reported w [] "Set User (UPN) and Role, then click Save" (loadStock srv w) ∧
      Reported w [] "Set User (UPN) and Role, then click Save" (loadLedger srv w)) ∧
    ((identOk w).1 = true → trim w.form.wo = "" →
      Reported w [] "Enter a Work Order number" (commitCheckout srv w)) ∧
    ((trim w.form.in_part = "" ∨ trim w.form.in_wo = "" ∨ trim w.form.in_claim = "") →
      Reported w [] "Fill Part, Work Order, and Vendor Claim" (checkIn srv w)) ∧
    (w.form.partPick = none → Reported w [] "Pick a part first" (addSelected srv w)) ∧
    ((identOk w).1 = true → trim w.form.wo ≠ "" →
      srv (w.requests ++ [commitRequest w]) = .resp false t j →
      Reported w [commitRequest w] ("Checkout failed: " ++ t) (commitCheckout srv w)) ∧
    ((identOk w).1 = true → srv (w.requests ++ [clearRequest w]) = .resp false t j →
      Reported w [clearRequest w] ("Clear failed: " ++ t) (clearSummary srv w)) ∧
    (trim w.form.in_part ≠ "" → trim w.form.in_wo ≠ "" → trim w.form.in_claim ≠ "" →
      srv (w.requests ++ [checkinRequest w]) = .resp false t j →
      Reported w [checkinRequest w] ("Check-in failed: " ++ t) (checkIn srv w)) ∧
    ((identOk w).1 = true → srv (w.requests ++ [stockRequest w]) = .resp false t j →
      Reported w [stockRequest w] ("Stock error: " ++ t) (loadStock srv w)) ∧
    ((identOk w).1 = true → srv (w.requests ++ [ledgerRequest w]) = .resp false t j →
      Reported w [ledgerRequest w] ("Ledger error: " ++ t) (loadLedger srv w)) ∧
    (∀ pick t0 cart, w.form.partPick = some pick → (identOk w).1 = true →
      srv (w.requests ++ [cartRequest w]) = .resp true t0 (.ok cart) →
      srv (w.requests ++ [cartRequest w] ++ [lineRequest w pick]) = .resp false t j →
      Reported w [cartRequest w, lineRequest w pick] ("Add failed: " ++ t)
        (addSelected srv w)) ∧
    (srv (w.requests ++ [summaryRequest w]) = .resp false t j →
      refreshSummary srv w = .done ()
        { w with requests := w.requests ++ [summaryRequest w],
                 summary := .text "None selected.", commitDisabled := true }) := by
  refine ⟨?_, ?_, ?_, ?_, ?_, ?_, ?_, ?_, ?_, ?_, ?_⟩
  · intro hid
    have h := identOk_of_false w hid
    refine ⟨?_, ?_, ?_, ?_⟩ <;>
      simp [Reported, commitCheckout, clearSummary, loadStock, loadLedger, h, Outcome.world,
        Outcome.isRaised, statusMsg, truthy]
  · intro hid hwo
    simp [Reported, commitCheckout, identOk_of_true w hid, hwo, Outcome.world,
      Outcome.isRaised, statusMsg, truthy]
  · intro h
    have hv : (truthy (trim w.form.in_part) && truthy (trim w.form.in_wo) &&
        truthy (trim w.form.in_claim)) = false := by
      rcases h with h | h | h <;> simp [truthy, h]
    have hrun : checkIn srv w =
        .done () (statusMsg "Fill Part, Work Order, and Vendor Claim" "error" w) := by
      simp only [checkIn, hv, Bool.not_false, if_true]
    rw [hrun]
    simp [Reported, Outcome.world, Outcome.isRaised, statusMsg, truthy]
  · intro hp
    simp [Reported, addSelected, hp, Outcome.world, Outcome.isRaised, statusMsg, truthy]
  · intro hid hwo hs
    have hw : truthy (trim w.form.wo) = true := by simp [truthy, hwo]
    have hrun : commitCheckout srv w =
        .done () (statusMsg ("Checkout failed: " ++ t) "error"
          { w with requests := w.requests ++ [commitRequest w] }) := by
      simp only [commitCheckout, identOk_of_true w hid, hw, Bool.not_true, Bool.false_eq_true,
        if_false, fetch_of_resp srv _ w false t j hs, Outcome.andThen, Outcome.tryCatch]
      rfl
    rw [hrun]
    simp [Reported, Outcome.world, Outcome.isRaised, statusMsg, truthy]
  · intro hid hs
    have hrun : clearSummary srv w =
        .done () (statusMsg ("Clear failed: " ++ t) "error"
          { w with requests := w.requests ++ [clearRequest w] }) := by
      simp only [clearSummary, identOk_of_true w hid, fetch_of_resp srv _ w false t j hs,
        Outcome.andThen, Outcome.tryCatch, Bool.not_false, if_true]
    rw [hrun]
    simp [Reported, Outcome.world, Outcome.isRaised, statusMsg, truthy]
  · intro hp hwo hvc hs
    have hv : (truthy (trim w.form.in_part) && truthy (trim w.form.in_wo) &&
        truthy (trim w.form.in_claim)) = true := by
      simp [truthy, hp, hwo, hvc]
    have hrun : checkIn srv w =
        .done () (statusMsg ("Check-in failed: " ++ t) "error"
          { w with requests := w.requests ++ [checkinRequest w] }) := by
      simp only [checkIn, hv, Bool.not_true, Bool.false_eq_true, if_false,
        fetch_of_resp srv _ w false t j hs, Outcome.andThen, Bool.not_false, if_true]
    rw [hrun]
    simp [Reported, Outcome.world, Outcome.isRaised, statusMsg, truthy]
  · intro hid hs
    have hrun : loadStock srv w =
        .done () (statusMsg ("Stock error: " ++ t) "error"
          { w with requests := w.requests ++ [stockRequest w] }) := by
      simp only [loadStock, identOk_of_true w hid, fetch_of_resp srv _ w false t j hs,
        Outcome.andThen, Bool.not_false, if_true]
    rw [hrun]
    simp [Reported, Outcome.world, Outcome.isRaised, statusMsg, truthy]
  · intro hid hs
    have hrun : loadLedger srv w =
        .done () (statusMsg ("Ledger error: " ++ t) "error"
          { w with requests := w.requests ++ [ledgerRequest w] }) := by
      simp only [loadLedger, identOk_of_true w hid, fetch_of_resp srv _ w false t j hs,
        Outcome.andThen, Bool.not_false, if_true]
    rw [hrun]
    simp [Reported, Outcome.world, Outcome.isRaised, statusMsg, truthy]
  · intro pick t0 cart hp hid hs1 hs2
    have hcart : ensureCart srv w =
        .done cart { w with requests := w.requests ++ [cartRequest w] } := by
      simp only [ensureCart, identOk_of_true w hid, fetch_of_resp srv _ w true t0 _ hs1,
        Outcome.andThen, Bool.not_true, Bool.false_eq_true, if_false, readJson]
    have hline : fetch srv (lineRequest w pick)
        { w with requests := w.requests ++ [cartRequest w] } =
        .done ⟨false, t, j⟩ { w with requests := w.requests ++ [cartRequest w] ++
          [lineRequest w pick] } :=
      fetch_of_resp srv _ _ false t j hs2
    have hrun : addSelected srv w =
        .done () (statusMsg ("Add failed: " ++ t) "error"
          { w with requests := w.requests ++ [cartRequest w] ++ [lineRequest w pick] }) := by
      simp only [addSelected, hp, hcart, Outcome.andThen]
      show ((fetch srv (lineRequest w pick)
        { w with requests := w.requests ++ [cartRequest w] }).andThen _) = _
      rw [hline]
      simp only [Outcome.andThen, Bool.not_false, if_true]
    rw [hrun]
    simp [Reported, Outcome.world, Outcome.isRaised, statusMsg, truthy]
  · intro hs
    simp only [refreshSummary, fetch_of_resp srv _ w false t j hs, Outcome.andThen,
      Bool.not_false, if_true]

/-- C10, witness: a backend that refuses everything, a complete identity and a
work order typed in. -/
theorem failures_reported_witness :
    Reported { blank with form := { blank.form with wo := "W1" } }
      [commitRequest { blank with form := { blank.form with wo := "W1" } }]
      ("Checkout failed: " ++ "denied")
      (commitCheckout failServer { blank with form := { blank.form with wo := "W1" } }) :=
  (failures_reported failServer { blank with form := { blank.form with wo := "W1" } }
    "denied" (.error "Unexpected token")).2.2.2.2.1 (by decide) (by decide) rfl

/-- C10, counterexample: on a non-2xx response `refreshSummary` completes and
leaves the status as it was, so no error is reported. -/
theorem refreshSummary_failure_is_silent :
    failServer [summaryRequest blank] = .resp false "denied" (.error "Unexpected token") ∧
    (refreshSummary failServer blank).isRaised = false ∧
    (refreshSummary failServer blank).world.status = ⟨"muted", ""⟩ ∧
    (refreshSummary failServer blank).world.status.className ≠ "error" := by
  refine ⟨rfl, ?_, ?_, ?_⟩ <;> decide

/-- When the create-cart request gets a non-2xx response, `ensureCart` raises
and `addSelected`, which calls it outside any `try`, raises too; the status
is left as it was. -/
theorem addSelected_create_cart_raises :
    (addSelected failServer { blank with form := { blank.form with partPick := some "P100" } }
      ).isRaised = true ∧
    (addSelected failServer { blank with form := { blank.form with partPick := some "P100" } }
      ).world.status = ⟨"muted", ""⟩ ∧
    (addSelected failServer { blank with form := { blank.form with partPick := some "P100" } }
      ).world.requests =
      [⟨.POST, "/cart", [],
        [("x-user-upn", "admin@example.com"), ("x-user-role", "PartsAdmin")], none⟩] := by
  decide

end SpareParts
